import Mathlib

/-!
Shallow embedding of `sagendataqualityframework.py` (class `SagenDataQuality`),
a façade over the Great Expectations engine.  Engine objects are opaque
handles; every delegated engine call is recorded in a trace and its outcome is
supplied by an abstract `Engine` record, so that argument-validation order,
handle-versus-name resolution, error wrapping and the parameters passed to the
engine can be proved about the façade code itself.  Python `ValueError`
messages are modelled as the `String` payload of `Except.error`.
-/

/-- Opaque pandas DataFrame handle. -/
abbrev DataFrame := Nat

/-- Opaque data-source handle (`context.data_sources` entry). -/
abbrev DataSource := Nat

/-- Opaque data-asset handle. -/
abbrev DataAsset := Nat

/-- Opaque batch-definition handle. -/
abbrev BatchDefinition := Nat

/-- Opaque materialized batch. -/
abbrev Batch := Nat

/-- Opaque expectation (rule) object. -/
abbrev Expectation := Nat

/-- An expectation suite, identified by its name (`gx.ExpectationSuite(name=...)`). -/
abbrev Suite := String

/-- `batch_parameters`: the mapping passed to batch/validation/checkpoint runs.
In the source it is the dict `{"dataframe": df}`; its single key is modelled
as a one-field structure. -/
structure BatchParams where
  dataframe : DataFrame
deriving DecidableEq, Repr

/-- `gx.ValidationDefinition(data=..., suite=..., name=...)`. -/
structure ValidationDefinition where
  data : BatchDefinition
  suite : Suite
  name : String
deriving DecidableEq, Repr

/-- The dynamically typed value that `create_validation_definition` passes to
`context.validation_definitions.add`: the Python variable
`validation_definition_name` holds either the original name string or, after
the rebinding in the `else` branch (source line 410), a `ValidationDefinition`
object. -/
inductive VDArg where
  | nameStr (s : String)
  | obj (vd : ValidationDefinition)
deriving DecidableEq, Repr

/-- `UpdateDataDocsAction(name=..., site_names=[...])`. -/
structure UpdateDataDocsAction where
  name : String
  site_names : List String
deriving DecidableEq, Repr

/-- `gx.Checkpoint(...)` as built by `create_checkpoint`. -/
structure Checkpoint where
  name : String
  validation_definitions : List VDArg
  actions : List UpdateDataDocsAction
  result_format : String
deriving DecidableEq, Repr

/-- `RunIdentifier(run_name=...)`. -/
structure RunIdentifier where
  run_name : String
deriving DecidableEq, Repr

/-- A checkpoint / validation run result: claims only inspect the `success`
flag; the rest of the result object is an opaque payload. -/
structure Results where
  success : Bool
  payload : Nat
deriving DecidableEq, Repr

/-- One delegated call into the wrapped engine, with the arguments the façade
passed.  The constructors follow the call sites in the source file. -/
inductive DelegateCall where
  | addPandas (name : String)
  | dsGet (name : String)
  | addDataframeAsset (ds : DataSource) (name : String)
  | getAsset (ds : DataSource) (name : String)
  | addBatchDefWholeDf (da : DataAsset) (name : String)
  | assetGetBatchDef (da : DataAsset) (name : Option String)
  | bdGetBatch (bd : BatchDefinition) (params : BatchParams)
  | suitesAdd (s : Suite)
  | suitesGet (name : String)
  | suiteAddExpectation (s : Suite) (e : Expectation)
  | suiteSave (s : Suite)
  | vdAdd (arg : VDArg)
  | vdGet (name : String)
  | vdRun (vd : ValidationDefinition) (params : BatchParams)
  | checkpointsAdd (c : Checkpoint)
  | checkpointsGet (name : String)
  | checkpointRun (c : Checkpoint) (rid : RunIdentifier) (params : BatchParams)
deriving DecidableEq, Repr

/-- The wrapped engine: the outcome of each kind of delegated call.  The
façade is proved correct for every engine, so these are unconstrained
functions. -/
structure Engine where
  addPandas : String → Except String DataSource
  dsGet : String → Except String DataSource
  addDataframeAsset : DataSource → String → Except String DataAsset
  getAsset : DataSource → String → Except String DataAsset
  addBatchDefWholeDf : DataAsset → String → Except String BatchDefinition
  assetGetBatchDef : DataAsset → Option String → Except String BatchDefinition
  bdGetBatch : BatchDefinition → BatchParams → Except String Batch
  suitesAdd : Suite → Except String Unit
  suitesGet : String → Except String Suite
  suiteAddExpectation : Suite → Expectation → Except String Unit
  suiteSave : Suite → Except String Unit
  vdAdd : VDArg → Except String VDArg
  vdGet : String → Except String ValidationDefinition
  vdRun : ValidationDefinition → BatchParams → Except String Results
  checkpointsAdd : Checkpoint → Except String Unit
  checkpointsGet : String → Except String Checkpoint
  checkpointRun : Checkpoint → RunIdentifier → BatchParams → Except String Results

/-- Result of a façade operation: the Python return value or raised
`ValueError` message, together with the trace of delegated engine calls made
(in order). -/
def Res (α : Type) : Type := Except String α × List DelegateCall

/-- A successfully computed value with no delegated call. -/
def rok {α : Type} (a : α) : Res α := (Except.ok a, [])

/-- A raised `ValueError` with no delegated call. -/
def rerr {α : Type} (m : String) : Res α := (Except.error m, [])

/-- Sequencing: on success continue, accumulating traces; a raised error
propagates (Python exception propagation). -/
def rbind {α β : Type} (x : Res α) (f : α → Res β) : Res β :=
  match x with
  | (Except.ok a, t) =>
      match f a with
      | (r, t2) => (r, t ++ t2)
  | (Except.error m, t) => (Except.error m, t)

/-- A `try ... except Exception as e: raise ValueError(f(str(e)))` boundary:
rewrites the message of an error escaping the body. -/
def wrapErr {α : Type} (f : String → String) : Res α → Res α
  | (Except.error m, t) => (Except.error (f m), t)
  | r => r

/-- Perform one delegated engine call, recording it in the trace. -/
def callD {α : Type} (c : DelegateCall) (r : Except String α) : Res α := (r, [c])

/-- Python truthiness of an `Optional[str]`: `None` and `""` are falsy. -/
def pyTruthyOpt (o : Option String) : Bool :=
  match o with
  | some s => s ≠ ""
  | none => false

/-- Python `str()` of the value bound to `validation_definition_name` when it
is interpolated into an error message (source line 421): a plain string
renders as itself; the rendering of a rebound `ValidationDefinition` object is
engine-defined and modelled by a fixed function of its name. -/
def pyStrVDArg : VDArg → String
  | VDArg.nameStr s => s
  | VDArg.obj vd => "ValidationDefinition(name=" ++ vd.name ++ ")"

/-- Python `str()` of a data-source handle when it is interpolated into an
error message; the exact rendering is engine-defined and modelled as a fixed
function of the handle. -/
def pyStrDataSource (ds : DataSource) : String :=
  "DataSource(" ++ toString ds ++ ")"

/-- The façade instance state: the attributes set by `__init__` that later
operations read.  No method of the class assigns to any attribute after
construction, so operations take the state read-only. -/
structure SagenDataQualityState where
  df : DataFrame
  batch_parameters : BatchParams
deriving DecidableEq, Repr

/-- `_initialize_context`: wraps a failure of `gx.get_context` (modelled by the
`getContext` outcome) into the context-initialization `ValueError`. -/
def initialize_context (getContext : Except String Nat) : Except String Nat :=
  match getContext with
  | Except.ok c => Except.ok c
  | Except.error m =>
      Except.error ("Failed to initialize Great Expectations context: " ++ m)

/-- `__init__(df, mode, project_root_dir)`: rejects a `None` dataframe before
anything else, then initializes the context exactly once and stores `df` and
`batch_parameters`.  The second component counts invocations of
`gx.get_context` (the `getContext` oracle). -/
def SagenDataQuality_init (getContext : Except String Nat) (df : Option DataFrame) :
    Except String SagenDataQualityState × Nat :=
  match df with
  | none => (Except.error "DataFrame cannot be None", 0)
  | some d =>
      match initialize_context getContext with
      | Except.ok _ =>
          (Except.ok { df := d, batch_parameters := { dataframe := d } }, 1)
      | Except.error m => (Except.error m, 1)

/-- `set_data_source(data_source_name, data_frame_type)`. -/
def set_data_source (e : Engine) (data_source_name : String)
    (data_frame_type : String) : Res DataSource :=
  if data_source_name = "" then rerr "data_source_name cannot be empty"
  else if data_frame_type ≠ "pandas" then
    rerr "Only pandas DataFrame type is currently supported"
  else
    wrapErr (fun m =>
        "Failed to create data source \x27" ++ data_source_name ++ "\x27: " ++ m)
      (callD (DelegateCall.addPandas data_source_name)
        (e.addPandas data_source_name))

/-- `get_data_source(data_source_name)`. -/
def get_data_source (e : Engine) (data_source_name : String) : Res DataSource :=
  if data_source_name = "" then rerr "data_source_name cannot be empty"
  else
    wrapErr (fun m =>
        "Data source \x27" ++ data_source_name ++ "\x27 not found: " ++ m)
      (callD (DelegateCall.dsGet data_source_name) (e.dsGet data_source_name))

/-- `set_data_asset(data_source, data_asset_name, data_source_name)`: resolves
the data source first (by name lookup when no handle is given), and only then
checks `data_asset_name` for emptiness. -/
def set_data_asset (e : Engine) (data_source : Option DataSource)
    (data_asset_name : String) (data_source_name : Option String) :
    Res DataAsset :=
  rbind
    (match data_source with
     | some ds => rok ds
     | none =>
         if pyTruthyOpt data_source_name then
           get_data_source e (data_source_name.getD "")
         else rerr "Please provide either data_source object or data_source_name")
    (fun ds =>
      if data_asset_name = "" then rerr "data_asset_name cannot be empty"
      else
        wrapErr (fun m =>
            "Failed to create data asset \x27" ++ data_asset_name ++ "\x27: " ++ m)
          (callD (DelegateCall.addDataframeAsset ds data_asset_name)
            (e.addDataframeAsset ds data_asset_name)))

/-- `get_data_asset(data_asset_name, data_source, data_source_name)`: same
resolution order as `set_data_asset`. -/
def get_data_asset (e : Engine) (data_asset_name : String)
    (data_source : Option DataSource) (data_source_name : Option String) :
    Res DataAsset :=
  rbind
    (match data_source with
     | some ds => rok ds
     | none =>
         if pyTruthyOpt data_source_name then
           get_data_source e (data_source_name.getD "")
         else rerr "Please provide either data_source object or data_source_name")
    (fun ds =>
      if data_asset_name = "" then rerr "data_asset_name cannot be empty"
      else
        wrapErr (fun m =>
            "Data asset \x27" ++ data_asset_name ++ "\x27 not found: " ++ m)
          (callD (DelegateCall.getAsset ds data_asset_name)
            (e.getAsset ds data_asset_name)))

/-- `set_batch_definition(batch_definition_name, data_asset, data_asset_name,
data_source_name)`: resolves the data asset first, then checks the batch
definition name for emptiness. -/
def set_batch_definition (e : Engine) (batch_definition_name : String)
    (data_asset : Option DataAsset) (data_asset_name : Option String)
    (data_source_name : Option String) : Res BatchDefinition :=
  rbind
    (match data_asset with
     | some da => rok da
     | none =>
         if pyTruthyOpt data_asset_name && pyTruthyOpt data_source_name then
           get_data_asset e (data_asset_name.getD "") none data_source_name
         else
           rerr "Please provide either data_asset object or data_asset_name and data_source_name")
    (fun da =>
      if batch_definition_name = "" then
        rerr "batch_definition_name cannot be empty"
      else
        wrapErr (fun m =>
            "Failed to create batch definition \x27" ++ batch_definition_name ++ "\x27: " ++ m)
          (callD (DelegateCall.addBatchDefWholeDf da batch_definition_name)
            (e.addBatchDefWholeDf da batch_definition_name)))

/-- `get_batch_definition(batch_definition_name, data_source_name,
data_asset_name, data_asset)`: the empty-name check sits before the `try`
block; the shape error for missing arguments sits inside it (so it gets
re-wrapped by the `except` clause).  In the name-pair branch the source looks
the data source up, binds it unused, and then calls `get_data_asset` by
names, which looks the data source up again. -/
def get_batch_definition (e : Engine) (batch_definition_name : String)
    (data_source_name : Option String) (data_asset_name : Option String)
    (data_asset : Option DataAsset) : Res BatchDefinition :=
  if batch_definition_name = "" then rerr "batch_definition_name cannot be empty"
  else
    wrapErr (fun m =>
        "Failed to retrieve batch definition \x27" ++ batch_definition_name ++ "\x27: " ++ m)
      (match data_asset with
       | some da =>
           callD (DelegateCall.assetGetBatchDef da (some batch_definition_name))
             (e.assetGetBatchDef da (some batch_definition_name))
       | none =>
           if pyTruthyOpt data_source_name && pyTruthyOpt data_asset_name then
             rbind (get_data_source e (data_source_name.getD "")) (fun _ds =>
               rbind (get_data_asset e (data_asset_name.getD "") none data_source_name)
                 (fun da =>
                   callD (DelegateCall.assetGetBatchDef da (some batch_definition_name))
                     (e.assetGetBatchDef da (some batch_definition_name))))
           else
             rerr "You must provide either a \x27data_asset\x27 object or both \x27data_source_name\x27 and \x27data_asset_name\x27.")

/-- `get_data_batch(batch_definition, batch_definition_name, data_source_name,
data_asset_name, data_asset)`: everything, including the shape error, sits
inside the `try` block, so every failure is re-wrapped; the `data_asset`
parameter is accepted but never used by the body. -/
def get_data_batch (s : SagenDataQualityState) (e : Engine)
    (batch_definition : Option BatchDefinition)
    (batch_definition_name : Option String) (data_source_name : Option String)
    (data_asset_name : Option String) (_data_asset : Option DataAsset) :
    Res Batch :=
  wrapErr (fun m => "Failed to retrieve batch: " ++ m)
    (match batch_definition with
     | some bd =>
         callD (DelegateCall.bdGetBatch bd s.batch_parameters)
           (e.bdGetBatch bd s.batch_parameters)
     | none =>
         if pyTruthyOpt batch_definition_name && pyTruthyOpt data_source_name
             && pyTruthyOpt data_asset_name then
           rbind
             (get_batch_definition e (batch_definition_name.getD "")
               data_source_name data_asset_name none)
             (fun bd =>
               callD (DelegateCall.bdGetBatch bd s.batch_parameters)
                 (e.bdGetBatch bd s.batch_parameters))
         else
           rerr "You must provide either a \x27batch_definition\x27 or the combination of \x27batch_definition_name\x27, \x27data_source_name\x27, and \x27data_asset_name\x27.")

/-- `create_expectation_suite(suite_name)`. -/
def create_expectation_suite (e : Engine) (suite_name : String) : Res Suite :=
  if suite_name = "" then rerr "suite_name cannot be empty"
  else
    wrapErr (fun m =>
        "Failed to create expectation suite \x27" ++ suite_name ++ "\x27: " ++ m)
      (rbind (callD (DelegateCall.suitesAdd suite_name) (e.suitesAdd suite_name))
        (fun _ => rok suite_name))

/-- `get_expectation_suite(suite_name)`. -/
def get_expectation_suite (e : Engine) (suite_name : String) : Res Suite :=
  if suite_name = "" then rerr "suite_name cannot be empty"
  else
    wrapErr (fun m =>
        "Failed to retrieve expectation suite \x27" ++ suite_name ++ "\x27: " ++ m)
      (callD (DelegateCall.suitesGet suite_name) (e.suitesGet suite_name))

/-- `add_expectation(expectation, suite, suite_name)`: the argument checks sit
outside the `try` block; resolving the suite, adding and saving sit inside. -/
def add_expectation (e : Engine) (expectation : Option Expectation)
    (suite : Option Suite) (suite_name : Option String) : Res Suite :=
  match expectation with
  | none => rerr "expectation cannot be None"
  | some x =>
      if suite.isNone && !pyTruthyOpt suite_name then
        rerr "Either \x27suite\x27 or \x27suite_name\x27 must be provided"
      else
        wrapErr (fun m => "Failed to add expectation: " ++ m)
          (rbind
            (match suite with
             | some su => rok su
             | none => get_expectation_suite e (suite_name.getD ""))
            (fun target =>
              rbind
                (callD (DelegateCall.suiteAddExpectation target x)
                  (e.suiteAddExpectation target x))
                (fun _ =>
                  rbind (callD (DelegateCall.suiteSave target) (e.suiteSave target))
                    (fun _ => rok target))))

/-- The body of `get_data_asset` as reached from the positional call at source
line 402, `self.get_data_asset(data_source, data_asset_name)`: the signature
is `get_data_asset(data_asset_name, data_source=None, data_source_name=None)`,
so the data-source object arrives in the `data_asset_name` slot and the
asset-name string in the `data_source` slot.  That string is not `None`, so no
lookup branch runs; the object in `data_asset_name` is truthy, so the
empty-name check passes; `str.get_asset(...)` then raises `AttributeError`
(a string has no such attribute), which the `except` clause of
`get_data_asset` wraps, interpolating the object held in `data_asset_name`. -/
def get_data_asset_swapped (ds : DataSource) (_data_asset_name : String) :
    Res DataAsset :=
  wrapErr (fun m => "Data asset \x27" ++ pyStrDataSource ds ++ "\x27 not found: " ++ m)
    (rerr "\x27str\x27 object has no attribute \x27get_asset\x27")

/-- `create_validation_definition(validation_definition_name, suite,
batch_definition, data_source_name, data_asset_name, data_asset)`.  Faithful
to the source: only the `else` branch (a `batch_definition` handle supplied)
rebinds `validation_definition_name` to a `ValidationDefinition` object; in
the other branches the resolved batch definition is discarded and the plain
name string is what gets passed to `context.validation_definitions.add`.  The
`data_asset` branches call `data_asset.get_batch_definition()` with no name
argument. -/
def create_validation_definition (e : Engine)
    (validation_definition_name : String) (suite : Option Suite)
    (batch_definition : Option BatchDefinition)
    (data_source_name : Option String) (data_asset_name : Option String)
    (data_asset : Option DataAsset) : Res VDArg :=
  if validation_definition_name = "" then
    rerr "validation_definition_name cannot be empty"
  else
    match suite with
    | none => rerr "suite cannot be None"
    | some su =>
        match batch_definition with
        | some bd =>
            let vdObj := VDArg.obj
              { data := bd, suite := su, name := validation_definition_name }
            wrapErr (fun m =>
                "Failed to create validation definition \x27" ++ pyStrVDArg vdObj ++ "\x27: " ++ m)
              (callD (DelegateCall.vdAdd vdObj) (e.vdAdd vdObj))
        | none =>
            wrapErr (fun m =>
                "Failed to create validation definition \x27" ++ validation_definition_name ++ "\x27: " ++ m)
              (rbind
                (match data_asset with
                 | some da =>
                     callD (DelegateCall.assetGetBatchDef da none)
                       (e.assetGetBatchDef da none)
                 | none =>
                     if pyTruthyOpt data_source_name && pyTruthyOpt data_asset_name then
                       rbind (get_data_source e (data_source_name.getD ""))
                         (fun ds =>
                           rbind (get_data_asset_swapped ds (data_asset_name.getD ""))
                             (fun da =>
                               callD (DelegateCall.assetGetBatchDef da none)
                                 (e.assetGetBatchDef da none)))
                     else
                       rerr "You must provide either a \x27batch_definition\x27, a \x27data_asset\x27, or both \x27data_source_name\x27 and \x27data_asset_name\x27.")
                (fun _bd =>
                  callD (DelegateCall.vdAdd (VDArg.nameStr validation_definition_name))
                    (e.vdAdd (VDArg.nameStr validation_definition_name))))

/-- `run_validation(validation_definition_name)`: note the `except` wrapper
does not mention the validation definition name. -/
def run_validation (s : SagenDataQualityState) (e : Engine)
    (validation_definition_name : String) : Res Results :=
  if validation_definition_name = "" then
    rerr "validation_definition_name cannot be empty"
  else
    wrapErr (fun m => "Failed to run validation: " ++ m)
      (rbind
        (callD (DelegateCall.vdGet validation_definition_name)
          (e.vdGet validation_definition_name))
        (fun vd =>
          callD (DelegateCall.vdRun vd s.batch_parameters)
            (e.vdRun vd s.batch_parameters)))

/-- `get_validation_definition(validation_definition_name)`. -/
def get_validation_definition (e : Engine)
    (validation_definition_name : String) : Res ValidationDefinition :=
  if validation_definition_name = "" then
    rerr "validation_definition_name cannot be empty"
  else
    wrapErr (fun m =>
        "Failed to retrieve validation definition \x27" ++ validation_definition_name ++ "\x27: " ++ m)
      (callD (DelegateCall.vdGet validation_definition_name)
        (e.vdGet validation_definition_name))

/-- `create_action_list(action_list_name, actions)`: with `actions=None`, one
default `UpdateDataDocsAction` is built, its site chosen by comparing the
action-list name against a hard-coded literal. -/
def create_action_list (action_list_name : String)
    (actions : Option (List UpdateDataDocsAction)) :
    Res (List UpdateDataDocsAction) :=
  if action_list_name = "" then rerr "action_list_name cannot be empty"
  else
    wrapErr (fun m =>
        "Failed to create action list \x27" ++ action_list_name ++ "\x27: " ++ m)
      (rok
        (match actions with
         | some a => a
         | none =>
             if action_list_name = "delq_history_checkpoint_dev_actions" then
               [{ name := "Update Data Docs for " ++ action_list_name,
                  site_names := ["local_site1"] }]
             else
               [{ name := "Update Data Docs for " ++ action_list_name,
                  site_names := ["local_site2"] }]))

/-- `create_checkpoint(checkpoint_name, validation_definition, action_list,
result_format)`. -/
def create_checkpoint (e : Engine) (checkpoint_name : String)
    (validation_definition : Option VDArg)
    (action_list : Option (List UpdateDataDocsAction)) (result_format : String) :
    Res Checkpoint :=
  if checkpoint_name = "" then rerr "checkpoint_name cannot be empty"
  else
    match validation_definition with
    | none => rerr "validation_definition cannot be None"
    | some vd =>
        wrapErr (fun m =>
            "Failed to create checkpoint \x27" ++ checkpoint_name ++ "\x27: " ++ m)
          (rbind
            (match action_list with
             | some al => rok al
             | none => create_action_list (checkpoint_name ++ "_actions") none)
            (fun acts =>
              let cp : Checkpoint :=
                { name := checkpoint_name, validation_definitions := [vd],
                  actions := acts, result_format := result_format }
              rbind (callD (DelegateCall.checkpointsAdd cp) (e.checkpointsAdd cp))
                (fun _ => rok cp)))

/-- `run_checkpoint(checkpoint_name, run_id)`: builds the run identifier from
`run_id` when that is truthy and from `"run_" + checkpoint_name` otherwise,
fetches the checkpoint, runs it with the stored `batch_parameters`, prints a
success or failure line (a console side effect, not modelled) and returns the
results object unconditionally. -/
def run_checkpoint (s : SagenDataQualityState) (e : Engine)
    (checkpoint_name : String) (run_id : Option String) : Res Results :=
  if checkpoint_name = "" then rerr "checkpoint_name cannot be empty"
  else
    wrapErr (fun m =>
        "Failed to run checkpoint \x27" ++ checkpoint_name ++ "\x27: " ++ m)
      (let run_identifier : RunIdentifier :=
        { run_name :=
            if pyTruthyOpt run_id then run_id.getD ""
            else "run_" ++ checkpoint_name }
      rbind
        (callD (DelegateCall.checkpointsGet checkpoint_name)
          (e.checkpointsGet checkpoint_name))
        (fun cp =>
          callD (DelegateCall.checkpointRun cp run_identifier s.batch_parameters)
            (e.checkpointRun cp run_identifier s.batch_parameters)))

/-- A concrete engine on which every delegated call succeeds, used to
evaluate the façade at specific inputs. -/
def engineA : Engine where
  addPandas _ := Except.ok 1
  dsGet _ := Except.ok 2
  addDataframeAsset _ _ := Except.ok 3
  getAsset _ _ := Except.ok 4
  addBatchDefWholeDf _ _ := Except.ok 5
  assetGetBatchDef _ _ := Except.ok 6
  bdGetBatch _ _ := Except.ok 7
  suitesAdd _ := Except.ok ()
  suitesGet n := Except.ok n
  suiteAddExpectation _ _ := Except.ok ()
  suiteSave _ := Except.ok ()
  vdAdd a := Except.ok a
  vdGet _ := Except.ok { data := 6, suite := "s1", name := "v1" }
  vdRun _ _ := Except.ok { success := true, payload := 0 }
  checkpointsAdd _ := Except.ok ()
  checkpointsGet n :=
    Except.ok { name := n, validation_definitions := [], actions := [],
                result_format := "COMPLETE" }
  checkpointRun _ _ _ := Except.ok { success := false, payload := 1 }

/-- `engineA` with a failing validation-definition registry lookup. -/
def engineVdBoom : Engine :=
  { engineA with vdGet := fun _ => Except.error "boom" }

/-- `engineA` with every context name-registry lookup replaced: used to show
that handle-based calls never observe the registries. -/
def engineB : Engine :=
  { engineA with
    dsGet := fun _ => Except.error "registry changed"
    suitesGet := fun _ => Except.error "registry changed"
    vdGet := fun _ => Except.error "registry changed"
    checkpointsGet := fun _ => Except.error "registry changed" }

/-- A façade state as produced by a successful construction on dataframe 42. -/
def s0 : SagenDataQualityState :=
  { df := 42, batch_parameters := { dataframe := 42 } }

/-- The `batch_parameters` argument a delegated call carries, when it is one
of the three run-style calls. -/
def usesParams : DelegateCall → Option BatchParams
  | DelegateCall.bdGetBatch _ p => some p
  | DelegateCall.vdRun _ p => some p
  | DelegateCall.checkpointRun _ _ p => some p
  | _ => none

/-- Whether a delegated call is a context name-registry lookup
(`context.data_sources.get`, `context.suites.get`,
`context.validation_definitions.get`, `context.checkpoints.get`). -/
def isRegistryLookup : DelegateCall → Bool
  | DelegateCall.dsGet _ => true
  | DelegateCall.suitesGet _ => true
  | DelegateCall.vdGet _ => true
  | DelegateCall.checkpointsGet _ => true
  | _ => false

/-- The engine relation of agreeing on everything except the four context
name-registry lookups. -/
def Engine.agreeOffRegistry (e1 e2 : Engine) : Prop :=
  e1.addPandas = e2.addPandas ∧ e1.addDataframeAsset = e2.addDataframeAsset ∧
  e1.getAsset = e2.getAsset ∧ e1.addBatchDefWholeDf = e2.addBatchDefWholeDf ∧
  e1.assetGetBatchDef = e2.assetGetBatchDef ∧ e1.bdGetBatch = e2.bdGetBatch ∧
  e1.suitesAdd = e2.suitesAdd ∧
  e1.suiteAddExpectation = e2.suiteAddExpectation ∧
  e1.suiteSave = e2.suiteSave ∧ e1.vdAdd = e2.vdAdd ∧
  e1.checkpointsAdd = e2.checkpointsAdd ∧ e1.checkpointRun = e2.checkpointRun

theorem trace_wrapErr {α : Type} (f : String → String) (x : Res α) :
    (wrapErr f x).2 = x.2 := by
  rcases x with ⟨r, t⟩
  cases r <;> rfl

theorem rbind_rok {α β : Type} (a : α) (f : α → Res β) :
    rbind (rok a) f = f a := by
  rcases hf : f a with ⟨r, t⟩
  simp [rbind, rok, hf]

theorem rbind_rerr {α β : Type} (m : String) (f : α → Res β) :
    rbind (rerr m) f = rerr m := by
  rfl

theorem mem_rbind_trace {α β : Type} {x : Res α} {f : α → Res β}
    {c : DelegateCall} (h : c ∈ (rbind x f).2) :
    c ∈ x.2 ∨ ∃ a, c ∈ (f a).2 := by
  rcases x with ⟨r, t⟩
  cases r with
  | ok a =>
      rcases hf : f a with ⟨r2, t2⟩
      simp only [rbind, hf] at h
      rcases List.mem_append.mp h with h | h
      · exact Or.inl h
      · exact Or.inr ⟨a, by simp [hf, h]⟩
  | error m =>
      simp only [rbind] at h
      exact Or.inl h

/-- No call of a trace carries batch parameters. -/
def noRunParams (t : List DelegateCall) : Prop :=
  ∀ c ∈ t, usesParams c = none

theorem noRunParams_get_data_source (e : Engine) (n : String) :
    noRunParams (get_data_source e n).2 := by
  intro c hc
  unfold get_data_source at hc
  by_cases h : n = ""
  · simp [h, rerr] at hc
  · rw [if_neg h, trace_wrapErr] at hc
    simp [callD] at hc
    simp [hc, usesParams]

theorem noRunParams_get_data_asset (e : Engine) (dan : String)
    (dso : Option DataSource) (dsn : Option String) :
    noRunParams (get_data_asset e dan dso dsn).2 := by
  intro c hc
  unfold get_data_asset at hc
  rcases mem_rbind_trace hc with h | ⟨a, h⟩
  · cases dso with
    | some ds => simp [rok] at h
    | none =>
        by_cases ht : pyTruthyOpt dsn
        · rw [if_pos ht] at h
          exact noRunParams_get_data_source e _ c h
        · rw [if_neg ht] at h
          simp [rerr] at h
  · by_cases hd : dan = ""
    · simp [hd, rerr] at h
    · rw [if_neg hd, trace_wrapErr] at h
      simp [callD] at h
      simp [h, usesParams]

theorem noRunParams_get_batch_definition (e : Engine) (bdn : String)
    (dsn dan : Option String) (da : Option DataAsset) :
    noRunParams (get_batch_definition e bdn dsn dan da).2 := by
  intro c hc
  unfold get_batch_definition at hc
  by_cases h : bdn = ""
  · simp [h, rerr] at hc
  · rw [if_neg h, trace_wrapErr] at hc
    cases da with
    | some a =>
        simp [callD] at hc
        simp [hc, usesParams]
    | none =>
        by_cases ht : pyTruthyOpt dsn && pyTruthyOpt dan
        · rw [if_pos ht] at hc
          rcases mem_rbind_trace hc with h1 | ⟨ds, h1⟩
          · exact noRunParams_get_data_source e _ c h1
          · rcases mem_rbind_trace h1 with h2 | ⟨a2, h2⟩
            · exact noRunParams_get_data_asset e _ none dsn c h2
            · simp [callD] at h2
              simp [h2, usesParams]
        · rw [if_neg ht] at hc
          simp [rerr] at hc

theorem paramsOnly_get_data_batch (st : SagenDataQualityState) (e : Engine)
    (bd : Option BatchDefinition) (bdn dsn dan : Option String)
    (da : Option DataAsset) :
    ∀ c ∈ (get_data_batch st e bd bdn dsn dan da).2, ∀ p,
      usesParams c = some p → p = st.batch_parameters := by
  intro c hc p hp
  unfold get_data_batch at hc
  rw [trace_wrapErr] at hc
  cases bd with
  | some b =>
      simp [callD] at hc
      subst hc
      simp [usesParams] at hp
      exact hp.symm
  | none =>
      by_cases ht : pyTruthyOpt bdn && pyTruthyOpt dsn && pyTruthyOpt dan
      · rw [if_pos ht] at hc
        rcases mem_rbind_trace hc with h1 | ⟨b, h1⟩
        · have := noRunParams_get_batch_definition e _ dsn dan none c h1
          rw [this] at hp
          exact absurd hp (by simp)
        · simp [callD] at h1
          subst h1
          simp [usesParams] at hp
          exact hp.symm
      · rw [if_neg ht] at hc
        simp [rerr] at hc

theorem paramsOnly_run_validation (st : SagenDataQualityState) (e : Engine)
    (vn : String) :
    ∀ c ∈ (run_validation st e vn).2, ∀ p,
      usesParams c = some p → p = st.batch_parameters := by
  intro c hc p hp
  unfold run_validation at hc
  by_cases h : vn = ""
  · simp [h, rerr] at hc
  · rw [if_neg h, trace_wrapErr] at hc
    rcases mem_rbind_trace hc with h1 | ⟨vd, h1⟩
    · simp [callD] at h1
      subst h1
      simp [usesParams] at hp
    · simp [callD] at h1
      subst h1
      simp [usesParams] at hp
      exact hp.symm

theorem paramsOnly_run_checkpoint (st : SagenDataQualityState) (e : Engine)
    (cn : String) (rid : Option String) :
    ∀ c ∈ (run_checkpoint st e cn rid).2, ∀ p,
      usesParams c = some p → p = st.batch_parameters := by
  intro c hc p hp
  unfold run_checkpoint at hc
  by_cases h : cn = ""
  · simp [h, rerr] at hc
  · rw [if_neg h, trace_wrapErr] at hc
    rcases mem_rbind_trace hc with h1 | ⟨cp, h1⟩
    · simp [callD] at h1
      subst h1
      simp [usesParams] at hp
    · simp [callD] at h1
      subst h1
      simp [usesParams] at hp
      exact hp.symm

theorem wrapErr_ok_pair {α : Type} (f : String → String) (a : α)
    (t : List DelegateCall) : wrapErr f (Except.ok a, t) = (Except.ok a, t) := rfl

theorem wrapErr_err_pair {α : Type} (f : String → String) (m : String)
    (t : List DelegateCall) :
    wrapErr f ((Except.error m : Except String α), t) = (Except.error (f m), t) := rfl

/-- Claim C10: constructing the façade with a `None` dataframe raises
`ValueError` "DataFrame cannot be None" and performs zero context
initializations; for every non-`None` dataframe construction invokes the
context initialization exactly once and, when it returns a state, that state
stores the dataframe unchanged as `df`. -/
theorem C10_init_behavior (g : Except String Nat) (d : DataFrame) :
    SagenDataQuality_init g none = (Except.error "DataFrame cannot be None", 0) ∧
    (SagenDataQuality_init g (some d)).2 = 1 ∧
    (∀ st, (SagenDataQuality_init g (some d)).1 = Except.ok st →
      st.df = d ∧ st.batch_parameters = { dataframe := d }) := by
  refine ⟨rfl, ?_, ?_⟩
  · cases g <;> simp [SagenDataQuality_init, initialize_context]
  · intro st hst
    cases g with
    | ok c =>
        simp [SagenDataQuality_init, initialize_context] at hst
        rw [← hst]
        exact ⟨rfl, rfl⟩
    | error m =>
        simp [SagenDataQuality_init, initialize_context] at hst

theorem C10_init_behavior_witness :
    SagenDataQuality_init (Except.ok 0) none =
      (Except.error "DataFrame cannot be None", 0) ∧
    (SagenDataQuality_init (Except.ok 0) (some 42)).2 = 1 ∧
    (s0.df = 42 ∧ s0.batch_parameters = { dataframe := 42 }) :=
  ⟨(C10_init_behavior (Except.ok 0) 42).1,
   (C10_init_behavior (Except.ok 0) 42).2.1,
   (C10_init_behavior (Except.ok 0) 42).2.2 s0 rfl⟩

/-- Claim C5: `batch_parameters` is fixed at construction to exactly the
mapping binding "dataframe" to the constructor dataframe (no method of the
class assigns to the attribute afterwards, so operations read it from an
immutable state), and every batch materialization, validation run and
checkpoint run delegated call carries exactly that stored mapping. -/
theorem C5_batch_parameters_fixed (g : Except String Nat) (d : DataFrame)
    (st : SagenDataQualityState)
    (hst : (SagenDataQuality_init g (some d)).1 = Except.ok st) :
    st.batch_parameters = { dataframe := d } ∧
    (∀ e bd bdn dsn dan da c p, c ∈ (get_data_batch st e bd bdn dsn dan da).2 →
      usesParams c = some p → p = st.batch_parameters) ∧
    (∀ e vn c p, c ∈ (run_validation st e vn).2 →
      usesParams c = some p → p = st.batch_parameters) ∧
    (∀ e cn rid c p, c ∈ (run_checkpoint st e cn rid).2 →
      usesParams c = some p → p = st.batch_parameters) := by
  refine ⟨?_, ?_, ?_, ?_⟩
  · cases g with
    | ok c =>
        simp [SagenDataQuality_init, initialize_context] at hst
        rw [← hst]
    | error m =>
        simp [SagenDataQuality_init, initialize_context] at hst
  · intro e bd bdn dsn dan da c p hc hp
    exact paramsOnly_get_data_batch st e bd bdn dsn dan da c hc p hp
  · intro e vn c p hc hp
    exact paramsOnly_run_validation st e vn c hc p hp
  · intro e cn rid c p hc hp
    exact paramsOnly_run_checkpoint st e cn rid c hc p hp

theorem C5_batch_parameters_fixed_witness :
    s0.batch_parameters = { dataframe := 42 } ∧
    ({ dataframe := 42 } : BatchParams) = s0.batch_parameters :=
  ⟨(C5_batch_parameters_fixed (Except.ok 0) 42 s0 rfl).1,
   (C5_batch_parameters_fixed (Except.ok 0) 42 s0 rfl).2.1 engineA (some 5)
     none none none none (DelegateCall.bdGetBatch 5 s0.batch_parameters)
     { dataframe := 42 } (by decide) (by decide)⟩

/-- Claim C6: for every non-empty action-list name, `create_action_list` with
`actions=None` returns exactly one update-data-docs action; it targets site
"local_site1" exactly when the name is the literal
"delq_history_checkpoint_dev_actions", and "local_site2" otherwise. -/
theorem C6_create_action_list_default (n : String) (h : n ≠ "") :
    create_action_list n none =
      (Except.ok [{ name := "Update Data Docs for " ++ n,
                    site_names :=
                      if n = "delq_history_checkpoint_dev_actions" then
                        ["local_site1"]
                      else ["local_site2"] }], []) := by
  by_cases hd : n = "delq_history_checkpoint_dev_actions" <;>
    simp [create_action_list, h, hd, rok, wrapErr_ok_pair]

theorem C6_create_action_list_default_witness :
    create_action_list "delq_history_checkpoint_dev_actions" none =
      (Except.ok
        [{ name := "Update Data Docs for delq_history_checkpoint_dev_actions",
           site_names := ["local_site1"] }], []) ∧
    create_action_list "other_actions" none =
      (Except.ok
        [{ name := "Update Data Docs for other_actions",
           site_names := ["local_site2"] }], []) := by
  constructor
  · have h := C6_create_action_list_default
      "delq_history_checkpoint_dev_actions" (by decide)
    simpa using h
  · have h := C6_create_action_list_default "other_actions" (by decide)
    simpa using h

/-- Claim C9: once the empty-name check passes and the checkpoint lookup
succeeds, `run_checkpoint` returns exactly what the delegated run produces —
the results object whenever the run completes, with no inspection of its
`success` flag (a failed validation only prints a console line), and the
wrapped OperationFailed `ValueError` exactly when the run itself raises. -/
theorem C9_run_checkpoint_returns_results (s : SagenDataQualityState)
    (e : Engine) (cn : String) (rid : Option String) (cp : Checkpoint)
    (h : cn ≠ "") (hcp : e.checkpointsGet cn = Except.ok cp) :
    (run_checkpoint s e cn rid).1 =
      (match e.checkpointRun cp
          { run_name := if pyTruthyOpt rid then rid.getD ""
                        else "run_" ++ cn } s.batch_parameters with
       | Except.ok r => Except.ok r
       | Except.error m =>
           Except.error ("Failed to run checkpoint \x27" ++ cn ++ "\x27: " ++ m)) := by
  unfold run_checkpoint
  rw [if_neg h]
  cases hrun : e.checkpointRun cp
      { run_name := if pyTruthyOpt rid then rid.getD "" else "run_" ++ cn }
      s.batch_parameters with
  | ok r => simp [callD, hcp, rbind, hrun, wrapErr]
  | error m => simp [callD, hcp, rbind, hrun, wrapErr]

theorem C9_run_checkpoint_returns_results_witness :
    (run_checkpoint s0 engineA "cp1" none).1 =
      Except.ok { success := false, payload := 1 } := by
  have h := C9_run_checkpoint_returns_results s0 engineA "cp1" none
    { name := "cp1", validation_definitions := [], actions := [],
      result_format := "COMPLETE" } (by decide) rfl
  simpa using h

/-- Claim C1 (evaluating the code at the failing input): in the `data_asset`
call shape of `create_validation_definition`, the object handed to
`context.validation_definitions.add` is the bare name string — the given
suite and the resolved batch definition are discarded, so no object binding
the suite to the batch definition is registered. -/
theorem C1_data_asset_shape_registers_bare_name :
    create_validation_definition engineA "vd1" (some "suite1") none none none
        (some 7) =
      (Except.ok (VDArg.nameStr "vd1"),
       [DelegateCall.assetGetBatchDef 7 none,
        DelegateCall.vdAdd (VDArg.nameStr "vd1")]) ∧
    (∀ vd : ValidationDefinition,
      DelegateCall.vdAdd (VDArg.obj vd) ∉
        (create_validation_definition engineA "vd1" (some "suite1") none none
          none (some 7)).2) := by
  constructor
  · rfl
  · intro vd hm
    have ht : (create_validation_definition engineA "vd1" (some "suite1") none
        none none (some 7)).2 =
        [DelegateCall.assetGetBatchDef 7 none,
         DelegateCall.vdAdd (VDArg.nameStr "vd1")] := rfl
    rw [ht] at hm
    simp at hm

/-- Claim C2 counterexample: calling `set_data_asset` with an empty
`data_asset_name` and a `data_source_name` to resolve performs the delegated
context registry lookup before raising the empty-name `ValueError`, so the
InvalidArgument is not raised before any delegate call. -/
theorem C2_counterexample_delegate_before_check :
    set_data_asset engineA none "" (some "src1") =
      (Except.error "data_asset_name cannot be empty",
       [DelegateCall.dsGet "src1"]) ∧
    [DelegateCall.dsGet "src1"] ≠ ([] : List DelegateCall) :=
  ⟨rfl, by simp⟩

/-- Claim C2 (amended): every `create_*`/`get_*` operation that validates its
own target name directly raises the "cannot be empty" `ValueError` with no
delegate call; but `set_data_asset`, `get_data_asset` and
`set_batch_definition` resolve the parent handle by name first — so when a
parent name is supplied, a delegated registry lookup occurs before the
empty-name error is raised — and `get_data_batch` has no empty-name check at
all: an empty required name surfaces as the wrapped call-shape error. -/
theorem C2_empty_name_checks :
    (∀ e t, set_data_source e "" t =
      (Except.error "data_source_name cannot be empty", [])) ∧
    (∀ e, get_data_source e "" =
      (Except.error "data_source_name cannot be empty", [])) ∧
    (∀ e dsn dan da, get_batch_definition e "" dsn dan da =
      (Except.error "batch_definition_name cannot be empty", [])) ∧
    (∀ e, create_expectation_suite e "" =
      (Except.error "suite_name cannot be empty", [])) ∧
    (∀ e, get_expectation_suite e "" =
      (Except.error "suite_name cannot be empty", [])) ∧
    (∀ e, get_validation_definition e "" =
      (Except.error "validation_definition_name cannot be empty", [])) ∧
    (∀ su bd dsn dan da e, create_validation_definition e "" su bd dsn dan da =
      (Except.error "validation_definition_name cannot be empty", [])) ∧
    (∀ acts, create_action_list "" acts =
      (Except.error "action_list_name cannot be empty", [])) ∧
    (∀ e vd al rf, create_checkpoint e "" vd al rf =
      (Except.error "checkpoint_name cannot be empty", [])) ∧
    (∀ e ds dsn, set_data_asset e (some ds) "" dsn =
      (Except.error "data_asset_name cannot be empty", [])) ∧
    (∀ e ds dsn, get_data_asset e "" (some ds) dsn =
      (Except.error "data_asset_name cannot be empty", [])) ∧
    (∀ e n ds, n ≠ "" → e.dsGet n = Except.ok ds →
      set_data_asset e none "" (some n) =
        (Except.error "data_asset_name cannot be empty",
         [DelegateCall.dsGet n])) ∧
    (∀ e n ds, n ≠ "" → e.dsGet n = Except.ok ds →
      get_data_asset e "" none (some n) =
        (Except.error "data_asset_name cannot be empty",
         [DelegateCall.dsGet n])) ∧
    (∀ e dan dsn ds da, dan ≠ "" → dsn ≠ "" →
      e.dsGet dsn = Except.ok ds → e.getAsset ds dan = Except.ok da →
      set_batch_definition e "" none (some dan) (some dsn) =
        (Except.error "batch_definition_name cannot be empty",
         [DelegateCall.dsGet dsn, DelegateCall.getAsset ds dan])) ∧
    (∀ s e dsn dan dao, get_data_batch s e none (some "") dsn dan dao =
      (Except.error ("Failed to retrieve batch: You must provide either a \x27batch_definition\x27 or the combination of \x27batch_definition_name\x27, \x27data_source_name\x27, and \x27data_asset_name\x27."),
       [])) := by
  refine ⟨fun e t => rfl, fun e => rfl, fun e dsn dan da => rfl, fun e => rfl,
    fun e => rfl, fun e => rfl, fun su bd dsn dan da e => rfl, fun acts => rfl,
    fun e vd al rf => rfl, ?_, ?_, ?_, ?_, ?_, ?_⟩
  · intro e ds dsn
    simp [set_data_asset, rbind, rok, rerr]
  · intro e ds dsn
    simp [get_data_asset, rbind, rok, rerr]
  · intro e n ds hn hds
    simp [set_data_asset, get_data_source, pyTruthyOpt, hn, hds, callD,
      rbind, rerr, wrapErr]
  · intro e n ds hn hds
    simp [get_data_asset, get_data_source, pyTruthyOpt, hn, hds, callD,
      rbind, rerr, wrapErr]
  · intro e dan dsn ds da hdan hdsn hds hda
    simp [set_batch_definition, get_data_asset, get_data_source, pyTruthyOpt,
      hdan, hdsn, hds, hda, callD, rbind, rerr, wrapErr]
  · intro s e dsn dan dao
    simp [get_data_batch, pyTruthyOpt, rerr, wrapErr]

theorem C2_empty_name_checks_witness :
    set_data_asset engineA none "" (some "src2") =
      (Except.error "data_asset_name cannot be empty",
       [DelegateCall.dsGet "src2"]) :=
  C2_empty_name_checks.2.2.2.2.2.2.2.2.2.2.2.1 engineA "src2" 2 (by decide) rfl

theorem str_append_assoc (a b c : String) : (a ++ b) ++ c = a ++ (b ++ c) := by
  rcases a with ⟨la⟩
  rcases b with ⟨lb⟩
  rcases c with ⟨lc⟩
  show String.mk ((la ++ lb) ++ lc) = String.mk (la ++ (lb ++ lc))
  rw [List.append_assoc]

/-- Claim C3 counterexample: when neither a handle nor the name combination
is supplied to `get_data_batch`, the shape-describing error is raised inside
the `try` block and re-raised through the OperationFailed wrapper
("Failed to retrieve batch: ..."), not as the bare InvalidArgument message. -/
theorem C3_counterexample_wrapped_shape_error :
    (get_data_batch s0 engineA none none none none none).1 =
      Except.error ("Failed to retrieve batch: You must provide either a \x27batch_definition\x27 or the combination of \x27batch_definition_name\x27, \x27data_source_name\x27, and \x27data_asset_name\x27.") ∧
    (get_data_batch s0 engineA none none none none none).1 ≠
      Except.error "You must provide either a \x27batch_definition\x27 or the combination of \x27batch_definition_name\x27, \x27data_source_name\x27, and \x27data_asset_name\x27." := by
  constructor
  · rfl
  · intro h
    have h2 : (get_data_batch s0 engineA none none none none none).1 =
        Except.error ("Failed to retrieve batch: You must provide either a \x27batch_definition\x27 or the combination of \x27batch_definition_name\x27, \x27data_source_name\x27, and \x27data_asset_name\x27.") := rfl
    rw [h2] at h
    have h3 := Except.error.inj h
    exact absurd h3 (by decide)

/-- Claim C3 (amended): with neither a handle nor the complete name
combination supplied, `set_data_asset`, `get_data_asset`,
`set_batch_definition` and `add_expectation` raise the shape-describing
InvalidArgument directly (their check sits outside the `try` block), while
`get_batch_definition`, `get_data_batch` and `create_validation_definition`
raise it inside the `try` block, so it reaches the caller wrapped in the
OperationFailed "Failed to ..." message. -/
theorem C3_neither_supplied_errors :
    (∀ e dan, set_data_asset e none dan none =
      (Except.error "Please provide either data_source object or data_source_name",
       [])) ∧
    (∀ e dan, get_data_asset e dan none none =
      (Except.error "Please provide either data_source object or data_source_name",
       [])) ∧
    (∀ e bdn, set_batch_definition e bdn none none none =
      (Except.error "Please provide either data_asset object or data_asset_name and data_source_name",
       [])) ∧
    (∀ e x, add_expectation e (some x) none none =
      (Except.error "Either \x27suite\x27 or \x27suite_name\x27 must be provided",
       [])) ∧
    (∀ e bdn, bdn ≠ "" → get_batch_definition e bdn none none none =
      (Except.error ("Failed to retrieve batch definition \x27" ++ bdn ++ "\x27: You must provide either a \x27data_asset\x27 object or both \x27data_source_name\x27 and \x27data_asset_name\x27."),
       [])) ∧
    (∀ s e, get_data_batch s e none none none none none =
      (Except.error "Failed to retrieve batch: You must provide either a \x27batch_definition\x27 or the combination of \x27batch_definition_name\x27, \x27data_source_name\x27, and \x27data_asset_name\x27.",
       [])) ∧
    (∀ e vdn su, vdn ≠ "" →
      create_validation_definition e vdn (some su) none none none none =
      (Except.error ("Failed to create validation definition \x27" ++ vdn ++ "\x27: You must provide either a \x27batch_definition\x27, a \x27data_asset\x27, or both \x27data_source_name\x27 and \x27data_asset_name\x27."),
       [])) := by
  refine ⟨fun e dan => rfl, fun e dan => rfl, fun e bdn => rfl, fun e x => rfl,
    ?_, fun s e => rfl, ?_⟩
  · intro e bdn hn
    simp [get_batch_definition, hn, pyTruthyOpt, rerr, wrapErr,
      str_append_assoc]
  · intro e vdn su hn
    simp [create_validation_definition, hn, pyTruthyOpt, rbind, rerr, wrapErr,
      str_append_assoc]

theorem C3_neither_supplied_errors_witness :
    get_batch_definition engineA "bd1" none none none =
      (Except.error ("Failed to retrieve batch definition \x27bd1\x27: You must provide either a \x27data_asset\x27 object or both \x27data_source_name\x27 and \x27data_asset_name\x27."),
       []) :=
  C3_neither_supplied_errors.2.2.2.2.1 engineA "bd1" (by decide)

/-- Whether the first character list starts the second. -/
def charsStarts : List Char → List Char → Bool
  | [], _ => true
  | _ :: _, [] => false
  | a :: as, b :: bs => a == b && charsStarts as bs

/-- Whether the first character list occurs somewhere in the second. -/
def charsHas (pat : List Char) : List Char → Bool
  | [] => charsStarts pat []
  | b :: bs => charsStarts pat (b :: bs) || charsHas pat bs

/-- Whether `pat` occurs as a substring of `s`. -/
def strContains (s pat : String) : Bool := charsHas pat.data s.data

/-- Claim C4 counterexample: a delegate failure inside `run_validation` is
re-raised as "Failed to run validation: <original>", which does not contain
the target validation-definition name. -/
theorem C4_counterexample_name_omitted :
    run_validation s0 engineVdBoom "vdname1" =
      (Except.error "Failed to run validation: boom",
       [DelegateCall.vdGet "vdname1"]) ∧
    strContains "Failed to run validation: boom" "vdname1" = false := by
  constructor
  · rfl
  · decide

/-- Claim C4 (amended): every delegate exception is caught and re-raised as a
single OperationFailed `ValueError` embedding the original message; most
wrappers also name the target entity (for example `set_data_source`), but the
wrappers of `run_validation`, `add_expectation` and `get_data_batch` omit the
target name from the message. -/
theorem C4_wrap_messages :
    (∀ s e vn m, vn ≠ "" → e.vdGet vn = Except.error m →
      run_validation s e vn =
        (Except.error ("Failed to run validation: " ++ m),
         [DelegateCall.vdGet vn])) ∧
    (∀ e x su m, e.suiteAddExpectation su x = Except.error m →
      add_expectation e (some x) (some su) none =
        (Except.error ("Failed to add expectation: " ++ m),
         [DelegateCall.suiteAddExpectation su x])) ∧
    (∀ s e bd m, e.bdGetBatch bd s.batch_parameters = Except.error m →
      get_data_batch s e (some bd) none none none none =
        (Except.error ("Failed to retrieve batch: " ++ m),
         [DelegateCall.bdGetBatch bd s.batch_parameters])) ∧
    (∀ e n m, n ≠ "" → e.addPandas n = Except.error m →
      set_data_source e n "pandas" =
        (Except.error ("Failed to create data source \x27" ++ n ++ "\x27: " ++ m),
         [DelegateCall.addPandas n])) := by
  refine ⟨?_, ?_, ?_, ?_⟩
  · intro s e vn m hn hv
    simp [run_validation, hn, hv, callD, rbind, wrapErr]
  · intro e x su m hs
    simp [add_expectation, hs, callD, rbind, rok, pyTruthyOpt, wrapErr]
  · intro s e bd m hb
    simp [get_data_batch, hb, callD, wrapErr]
  · intro e n m hn hp
    simp [set_data_source, hn, hp, callD, wrapErr]

theorem C4_wrap_messages_witness :
    run_validation s0 engineVdBoom "vdx" =
      (Except.error ("Failed to run validation: " ++ "boom"),
       [DelegateCall.vdGet "vdx"]) :=
  C4_wrap_messages.1 s0 engineVdBoom "vdx" "boom" (by decide) rfl


theorem trace_callD_wrap {α : Type} (f : String → String) (c : DelegateCall)
    (r : Except String α) : (wrapErr f (callD c r)).2 = [c] := by
  cases r <;> rfl

/-- Claim C7: when the direct handle is supplied, each handle-or-name
operation performs no context name-registry lookup, and its entire result
(value or error, and trace) is identical under any two engines that agree off
the name registries — so two runs differing only in the registry contents
behave identically. -/
theorem C7_handle_bypasses_registry (e1 e2 : Engine)
    (hag : Engine.agreeOffRegistry e1 e2) :
    (∀ dan ds dsn, get_data_asset e1 dan (some ds) dsn =
        get_data_asset e2 dan (some ds) dsn ∧
      ∀ c ∈ (get_data_asset e1 dan (some ds) dsn).2,
        isRegistryLookup c = false) ∧
    (∀ ds dan dsn, set_data_asset e1 (some ds) dan dsn =
        set_data_asset e2 (some ds) dan dsn ∧
      ∀ c ∈ (set_data_asset e1 (some ds) dan dsn).2,
        isRegistryLookup c = false) ∧
    (∀ bdn da dan dsn, set_batch_definition e1 bdn (some da) dan dsn =
        set_batch_definition e2 bdn (some da) dan dsn ∧
      ∀ c ∈ (set_batch_definition e1 bdn (some da) dan dsn).2,
        isRegistryLookup c = false) ∧
    (∀ bdn dsn dan da, get_batch_definition e1 bdn dsn dan (some da) =
        get_batch_definition e2 bdn dsn dan (some da) ∧
      ∀ c ∈ (get_batch_definition e1 bdn dsn dan (some da)).2,
        isRegistryLookup c = false) ∧
    (∀ s bd bdn dsn dan dao, get_data_batch s e1 (some bd) bdn dsn dan dao =
        get_data_batch s e2 (some bd) bdn dsn dan dao ∧
      ∀ c ∈ (get_data_batch s e1 (some bd) bdn dsn dan dao).2,
        isRegistryLookup c = false) ∧
    (∀ vdn su bd dsn dan dao,
      create_validation_definition e1 vdn su (some bd) dsn dan dao =
        create_validation_definition e2 vdn su (some bd) dsn dan dao ∧
      ∀ c ∈ (create_validation_definition e1 vdn su (some bd) dsn dan dao).2,
        isRegistryLookup c = false) ∧
    (∀ x su sn, add_expectation e1 x (some su) sn =
        add_expectation e2 x (some su) sn ∧
      ∀ c ∈ (add_expectation e1 x (some su) sn).2,
        isRegistryLookup c = false) := by
  obtain ⟨h1, h2, h3, h4, h5, h6, h7, h8, h9, h10, h11, h12⟩ := hag
  refine ⟨?_, ?_, ?_, ?_, ?_, ?_, ?_⟩
  · intro dan ds dsn
    refine ⟨by simp only [get_data_asset, h3], ?_⟩
    intro c hc
    by_cases hd : dan = ""
    · simp [get_data_asset, rbind_rok, hd, rerr] at hc
    · simp only [get_data_asset, rbind_rok, if_neg hd, trace_callD_wrap] at hc
      simp at hc
      simp [hc, isRegistryLookup]
  · intro ds dan dsn
    refine ⟨by simp only [set_data_asset, h2], ?_⟩
    intro c hc
    by_cases hd : dan = ""
    · simp [set_data_asset, rbind_rok, hd, rerr] at hc
    · simp only [set_data_asset, rbind_rok, if_neg hd, trace_callD_wrap] at hc
      simp at hc
      simp [hc, isRegistryLookup]
  · intro bdn da dan dsn
    refine ⟨by simp only [set_batch_definition, h4], ?_⟩
    intro c hc
    by_cases hb : bdn = ""
    · simp [set_batch_definition, rbind_rok, hb, rerr] at hc
    · simp only [set_batch_definition, rbind_rok, if_neg hb,
        trace_callD_wrap] at hc
      simp at hc
      simp [hc, isRegistryLookup]
  · intro bdn dsn dan da
    refine ⟨by simp only [get_batch_definition, h5], ?_⟩
    intro c hc
    by_cases hb : bdn = ""
    · simp [get_batch_definition, hb, rerr] at hc
    · simp only [get_batch_definition, if_neg hb, trace_callD_wrap] at hc
      simp at hc
      simp [hc, isRegistryLookup]
  · intro s bd bdn dsn dan dao
    refine ⟨by simp only [get_data_batch, h6], ?_⟩
    intro c hc
    simp only [get_data_batch, trace_callD_wrap] at hc
    simp at hc
    simp [hc, isRegistryLookup]
  · intro vdn su bd dsn dan dao
    refine ⟨by simp only [create_validation_definition, h10], ?_⟩
    intro c hc
    cases su with
    | none =>
        by_cases hv : vdn = "" <;>
          simp [create_validation_definition, hv, rerr] at hc
    | some s2 =>
        by_cases hv : vdn = ""
        · simp [create_validation_definition, hv, rerr] at hc
        · simp only [create_validation_definition, if_neg hv,
            trace_callD_wrap] at hc
          simp at hc
          simp [hc, isRegistryLookup]
  · intro x su sn
    refine ⟨by simp only [add_expectation, h8, h9], ?_⟩
    intro c hc
    cases x with
    | none => simp [add_expectation, rerr] at hc
    | some x0 =>
        cases hadd : e1.suiteAddExpectation su x0 with
        | error m =>
            simp [add_expectation, rbind, rok, callD, hadd, wrapErr] at hc
            simp [hc, isRegistryLookup]
        | ok u =>
            cases hsave : e1.suiteSave su with
            | error m =>
                simp [add_expectation, rbind, rok, callD, hadd, hsave,
                  wrapErr] at hc
                rcases hc with hc | hc <;> simp [hc, isRegistryLookup]
            | ok u2 =>
                simp [add_expectation, rbind, rok, callD, hadd, hsave,
                  wrapErr] at hc
                rcases hc with hc | hc <;> simp [hc, isRegistryLookup]

theorem C7_handle_bypasses_registry_witness :
    get_data_asset engineA "a1" (some 3) none =
      get_data_asset engineB "a1" (some 3) none :=
  ((C7_handle_bypasses_registry engineA engineB
    ⟨rfl, rfl, rfl, rfl, rfl, rfl, rfl, rfl, rfl, rfl, rfl, rfl⟩).1
    "a1" 3 none).1

/-- Claim C8 counterexample: with the supplied run_id equal to the empty
string, the run identifier handed to the checkpoint run is "run_cp1", not the
supplied run_id — the claim that a supplied run_id is always used fails. -/
theorem C8_counterexample_empty_run_id_ignored :
    (run_checkpoint s0 engineA "cp1" (some "")).2 =
      [DelegateCall.checkpointsGet "cp1",
       DelegateCall.checkpointRun
         { name := "cp1", validation_definitions := [], actions := [],
           result_format := "COMPLETE" }
         { run_name := "run_cp1" } s0.batch_parameters] ∧
    (run_checkpoint s0 engineA "cp1" (some "")).2 ≠
      [DelegateCall.checkpointsGet "cp1",
       DelegateCall.checkpointRun
         { name := "cp1", validation_definitions := [], actions := [],
           result_format := "COMPLETE" }
         { run_name := "" } s0.batch_parameters] := by
  constructor
  · rfl
  · decide

/-- Claim C8 (amended): `run_checkpoint` runs the fetched checkpoint with run
name equal to the supplied run_id when that is a non-empty string, and with
"run_" followed by the checkpoint name when run_id is None or empty (Python
truthiness governs the fallback, not a None test). -/
theorem C8_run_identifier (s : SagenDataQualityState) (e : Engine)
    (cn : String) (rid : Option String) (cp : Checkpoint)
    (h : cn ≠ "") (hcp : e.checkpointsGet cn = Except.ok cp) :
    (run_checkpoint s e cn rid).2 =
      [DelegateCall.checkpointsGet cn,
       DelegateCall.checkpointRun cp
         { run_name :=
             match rid with
             | some r => if r = "" then "run_" ++ cn else r
             | none => "run_" ++ cn }
         s.batch_parameters] := by
  unfold run_checkpoint
  rw [if_neg h, trace_wrapErr]
  cases rid with
  | none => simp [pyTruthyOpt, callD, hcp, rbind]
  | some r =>
      by_cases hr : r = "" <;> simp [pyTruthyOpt, hr, callD, hcp, rbind]

theorem C8_run_identifier_witness :
    (run_checkpoint s0 engineA "cp2" (some "myrun")).2 =
      [DelegateCall.checkpointsGet "cp2",
       DelegateCall.checkpointRun
         { name := "cp2", validation_definitions := [], actions := [],
           result_format := "COMPLETE" }
         { run_name := "myrun" } s0.batch_parameters] := by
  have h := C8_run_identifier s0 engineA "cp2" (some "myrun")
    { name := "cp2", validation_definitions := [], actions := [],
      result_format := "COMPLETE" } (by decide) rfl
  simpa using h
